import Mathlib

/-!
Verification development for the boards-projects telemetry firmware
(an ESP32-C3 node that reads a DHT22 sensor and publishes readings over
MQTT).  We give a shallow embedding of:

* `MQTTClientManager::connect` and `MQTTClientManager::publish`
  (MQTTClientManager.cpp) — the broker retry loop and the publish path,
  modelled as functions over an abstract environment (per-attempt WiFi
  status and per-attempt probe outcome) that also return the trace of
  observable events (watchdog feeds, probes, retry sleeps);
* `WiFiManager::connect` (NetworkUtils.cpp) — the wireless retry loop,
  with its SSID pre-scan schedule, its poll-the-status wait loop (inside
  which the watchdog callback is invoked), and its retry sleeps;
* the per-cycle `loop()` body of the timed-connection variant of
  `esp32_dht22_mqtt.ino` — modelled as a function from a starting
  resource state and an environment (outcomes of the WiFi / NTP / MQTT
  probes, the sensor read and the two publish calls) to an outcome plus
  the ordered trace of acquire / release / probe / publish events;
* the 2-decimal rounding applied to readings before serialization
  (`(int)(x * 100 + 0.5f) / 100.0f`), over ℚ with the C cast's
  truncation-toward-zero semantics;
* the DHT22 sensor statistics and drift-smoothing step.  The file
  DHT22Sensor.cpp is not part of the source tree (only DHT22Sensor.h and
  its callers are), so `checkDataChange`, `getStatistics`,
  `resetStatistics` and the initial state are modelled from the spec, as
  marked in their doc comments.

Logging, serial output and the statistics counters of the connection
managers that no property mentions are elided from the embeddings.
-/

namespace MQTTClientManager

/-- Observable events of `MQTTClientManager::connect`:
a watchdog feed (lines 60-63), the early return when WiFi is down
(lines 71-75, event `wifiFail`), one broker connect attempt with its
outcome (lines 77-92, event `probe`), and the fixed 2-second inter-attempt
delay (line 123, event `sleep`). -/
inductive MEv where
  | feed
  | wifiFail
  | probe (ok : Bool)
  | sleep
deriving DecidableEq

/-- The retry loop of `MQTTClientManager::connect` (MQTTClientManager.cpp
lines 59-127).  `wifiUp j` is `WiFi.status() == WL_CONNECTED` at the start
of attempt `j`, `probeOk j` the outcome of `_mqttClient->connect` on
attempt `j`, `hasW` whether a watchdog callback was supplied.  The first
argument of the recursion is the number of attempts left, the second the
index of the current attempt; `k = 0` inside the body corresponds to the
source's `attempt == retryCount - 1` last-attempt test.  Returns the
result of the call together with the event trace. -/
def connectGo (wifiUp probeOk : Nat → Bool) (hasW : Bool) : Nat → Nat → Bool × List MEv
  | 0, _ => (false, [])
  | k + 1, i =>
    let pre : List MEv := if hasW then [MEv.feed] else []
    if wifiUp i = false then (false, pre ++ [MEv.wifiFail])
    else if probeOk i = true then (true, pre ++ [MEv.probe true])
    else if k = 0 then (false, pre ++ [MEv.probe false])
    else
      let r := connectGo wifiUp probeOk hasW k (i + 1)
      (r.1, pre ++ MEv.probe false :: MEv.sleep :: r.2)

/-- `MQTTClientManager::connect(retryCount, watchdogCallback)`. -/
def connect (wifiUp probeOk : Nat → Bool) (retryCount : Nat) (hasW : Bool) : Bool × List MEv :=
  connectGo wifiUp probeOk hasW retryCount 0

/-- Every `probe` event in the trace is immediately preceded by a `feed`
event (the watchdog is fed before each broker attempt). -/
def probesFedBefore : List MEv → Bool
  | [] => true
  | MEv.feed :: MEv.probe _ :: rest => probesFedBefore rest
  | MEv.probe _ :: _ => false
  | _ :: rest => probesFedBefore rest

/-- Every failed `probe` event that is not the last event of the trace is
immediately followed by a `sleep` event (a failed attempt with attempts
remaining sleeps the retry delay before the next attempt). -/
def failThenSleep : List MEv → Bool
  | MEv.probe false :: e :: rest => (e == MEv.sleep) && failThenSleep (e :: rest)
  | _ :: rest => failThenSleep rest
  | [] => true

/-- Recognizes broker connect attempts in a trace. -/
def isProbe : MEv → Bool
  | MEv.probe _ => true
  | _ => false

/-- `MQTTClientManager::publish` state: `_isConnected`, the underlying
`_mqttClient->connected()`, and the statistics counters
(MQTTClientManager.h lines 148-154). -/
structure MqttState where
  isConnected : Bool
  clientConnected : Bool
  connectCount : Nat
  publishCount : Nat
  errorCount : Nat
deriving DecidableEq

/-- `MQTTClientManager::publish` (MQTTClientManager.cpp lines 140-168).
`transmitOk` is the outcome of the underlying `_mqttClient->publish`
call.  When the manager is not connected the call returns `false`
without transmitting and without touching any counter; a transmit
success increments `_publishCount`; a transmit failure increments
`_errorCount`. -/
def publish (st : MqttState) (transmitOk : Bool) : Bool × MqttState :=
  if (st.isConnected && st.clientConnected) = false then (false, st)
  else if transmitOk then (true, { st with publishCount := st.publishCount + 1 })
  else (false, { st with errorCount := st.errorCount + 1 })

end MQTTClientManager

namespace WiFiManager

/-- Observable events of `WiFiManager::connect`: an SSID scan with its
outcome (lines 96-110), the start of one association attempt
(`WiFi.begin`, line 114, event `probeBegin`), a watchdog feed inside the
wait-for-connection poll loop (lines 126-129, event `feed`), the end of
the attempt with `WiFi.status() == WL_CONNECTED` as its outcome
(line 147, event `probeEnd`), and the inter-attempt retry sleep
(lines 101-103 and 161-163, event `sleep`). -/
inductive WEv where
  | scan (found : Bool)
  | probeBegin
  | feed
  | probeEnd (ok : Bool)
  | sleep
deriving DecidableEq

/-- Environment of one `WiFiManager::connect` call: whether the link is
already up on entry (line 75), the per-attempt scan outcome, the number
of iterations of the wait loop executed during attempt `i`
(0 when the status is connected at the first check), and whether the
attempt ends associated. -/
structure Env where
  alreadyConnected : Bool
  scanOk : Nat → Bool
  waitPolls : Nat → Nat
  linkOk : Nat → Bool

/-- The scan schedule of line 97: `attempt == 1 || attempt % 2 == 0`. -/
def needScan (attempt : Nat) : Bool := attempt == 1 || attempt % 2 == 0

/-- The events of one association attempt (lines 112-147): `WiFi.begin`,
then one watchdog feed per iteration of the wait loop (only when a
callback was supplied), then the status check that ends the attempt. -/
def attemptEvents (hasW : Bool) (e : Env) (attempt : Nat) : List WEv :=
  WEv.probeBegin ::
    ((if hasW then List.replicate (e.waitPolls attempt) WEv.feed else []) ++
      [WEv.probeEnd (e.linkOk attempt)])

/-- The retry loop of `WiFiManager::connect` (NetworkUtils.cpp
lines 84-168).  First recursion argument: attempts left; second: the
1-based attempt number (`k = 0` corresponds to `attempt == maxRetries`).
On a scan-verification failure the attempt performs no association; with
attempts remaining it sleeps the retry delay and continues, on the last
attempt it returns failure (lines 99-109).  The cleanup delays of
lines 88-94 and the 1-second poll delays are not modelled as `sleep`
events, which stand only for the `retryDelay` sleeps. -/
def connectGo (hasW : Bool) (e : Env) : Nat → Nat → Bool × List WEv
  | 0, _ => (false, [])
  | k + 1, i =>
    if needScan i = true ∧ e.scanOk i = false then
      if k = 0 then (false, [WEv.scan false])
      else
        let r := connectGo hasW e k (i + 1)
        (r.1, WEv.scan false :: WEv.sleep :: r.2)
    else
      let pre : List WEv := if needScan i then [WEv.scan true] else []
      if e.linkOk i = true then (true, pre ++ attemptEvents hasW e i)
      else if k = 0 then (false, pre ++ attemptEvents hasW e i)
      else
        let r := connectGo hasW e k (i + 1)
        (r.1, pre ++ attemptEvents hasW e i ++ WEv.sleep :: r.2)

/-- `WiFiManager::connect(timeout, maxRetries, retryDelay, watchdogCallback)`
(lines 63-180): returns `true` immediately when already connected
(lines 75-79), otherwise runs the retry loop from attempt 1. -/
def connect (hasW : Bool) (e : Env) (maxRetries : Nat) : Bool × List WEv :=
  if e.alreadyConnected then (true, []) else connectGo hasW e maxRetries 1

/-- Every failed `probeEnd` event that is not the last event of the trace
is immediately followed by a `sleep` event. -/
def failThenSleep : List WEv → Bool
  | WEv.probeEnd false :: e :: rest => (e == WEv.sleep) && failThenSleep (e :: rest)
  | _ :: rest => failThenSleep rest
  | [] => true

end WiFiManager

namespace DHT22Sensor

/-- `DHT22Sensor::MAX_CHANGE_THRESHOLD` (DHT22Sensor.h line 60; value 3.0
from the spec's configuration surface). -/
def MAX_CHANGE_THRESHOLD : ℚ := 3

/-- `DHT22Sensor::MAX_ANOMALY_COUNT` (DHT22Sensor.h line 61; value 3 from
the spec's configuration surface). -/
def MAX_ANOMALY_COUNT : Nat := 3

/-- The private state of `DHT22Sensor` that the statistics and smoothing
logic touches (DHT22Sensor.h lines 68-79).  The `lastValid*` baselines
are `Option ℚ` because the spec gives them an `unset` initial state. -/
structure SensorState where
  readCount : Nat
  errorCount : Nat
  lastValidTemperature : Option ℚ
  lastValidHumidity : Option ℚ
  consecutiveAnomalyCount : Nat
  anomalyCount : Nat
deriving DecidableEq

/-- `DHT22Sensor::Statistics` (DHT22Sensor.h lines 29-35). -/
structure Statistics where
  totalReads : Nat
  errors : Nat
  successRate : ℚ
  anomalyCount : Nat
  consecutiveAnomalyCount : Nat
deriving DecidableEq

/-- Modelled from the spec: DHT22Sensor.cpp is not in the source tree, so
the body of `DHT22Sensor::checkDataChange` (declared in DHT22Sensor.h
line 83) follows spec §4.1: with no prior accepted sample, accept
unconditionally and seed the baselines; when both deltas are below the
threshold, accept and reset `consecutiveAnomalyCount`; otherwise count an
outlier, and either force-accept when the incremented streak exceeds the
ceiling, or substitute the previous accepted values.  Returns the new
state together with the (possibly substituted) output values. -/
def checkDataChange (st : SensorState) (t h : ℚ) : SensorState × ℚ × ℚ :=
  match st.lastValidTemperature, st.lastValidHumidity with
  | some lt, some lh =>
    if |t - lt| < MAX_CHANGE_THRESHOLD ∧ |h - lh| < MAX_CHANGE_THRESHOLD then
      ({ st with lastValidTemperature := some t, lastValidHumidity := some h,
                 consecutiveAnomalyCount := 0 }, t, h)
    else
      if st.consecutiveAnomalyCount + 1 > MAX_ANOMALY_COUNT then
        ({ st with lastValidTemperature := some t, lastValidHumidity := some h,
                   consecutiveAnomalyCount := 0,
                   anomalyCount := st.anomalyCount + 1 }, t, h)
      else
        ({ st with consecutiveAnomalyCount := st.consecutiveAnomalyCount + 1,
                   anomalyCount := st.anomalyCount + 1 }, lt, lh)
  | _, _ =>
    ({ st with lastValidTemperature := some t, lastValidHumidity := some h,
               consecutiveAnomalyCount := 0 }, t, h)

/-- Fold the drift-smoothing step over a sequence of raw samples. -/
def processSamples (st : SensorState) (samples : List (ℚ × ℚ)) : SensorState :=
  samples.foldl (fun s p => (checkDataChange s p.1 p.2).1) st

/-- Modelled from the spec: the constructor body is in the missing
DHT22Sensor.cpp; per spec §4.1 no prior accepted sample exists initially
and all counters start at zero. -/
def initialState : SensorState :=
  { readCount := 0, errorCount := 0, lastValidTemperature := none,
    lastValidHumidity := none, consecutiveAnomalyCount := 0, anomalyCount := 0 }

/-- Modelled from the spec: `DHT22Sensor::getStatistics` (declared
`const` in DHT22Sensor.h line 53, hence it cannot modify the sensor
state) is a pure read of the counters with
`successRate = (totalAttempts - totalErrors) / totalAttempts * 100`,
defined as 0 when `totalAttempts` is 0 (spec §3). -/
def getStatistics (s : SensorState) : Statistics :=
  { totalReads := s.readCount
    errors := s.errorCount
    successRate :=
      if s.readCount = 0 then 0
      else ((s.readCount : ℚ) - (s.errorCount : ℚ)) / (s.readCount : ℚ) * 100
    anomalyCount := s.anomalyCount
    consecutiveAnomalyCount := s.consecutiveAnomalyCount }

/-- Modelled from the spec: `DHT22Sensor::resetStatistics` (declared in
DHT22Sensor.h line 54) zeroes all counters without touching the
`lastValid*` smoothing baselines (spec §4.1). -/
def resetStatistics (s : SensorState) : SensorState :=
  { s with readCount := 0, errorCount := 0,
           consecutiveAnomalyCount := 0, anomalyCount := 0 }

end DHT22Sensor

namespace Dht22MqttIno

/-- Events of one data-collection cycle of the timed-connection variant
of `esp32_dht22_mqtt.ino` (`loop()`, lines 398-611).  `acq*` events mark
the `new` allocation of a manager / handle, `rel*` its `delete` (the
destructors disconnect), `probe*` the corresponding connect / sync call
with its outcome, `readSensor` the `dhtSensor->read(3, 2000)` call and
`publish` one `publishJson` call with its outcome. -/
inductive CEv where
  | acqNetwork
  | acqTimeSync
  | acqChannel
  | relNetwork
  | relTimeSync
  | relChannel
  | probeNet (ok : Bool)
  | probeNtp (ok : Bool)
  | probeMqtt (ok : Bool)
  | readSensor (ok : Bool)
  | publish (ok : Bool)
deriving DecidableEq

/-- Which of the three per-cycle resources are currently held (the three
global manager pointers being non-null / their connections up). -/
structure Resources where
  wifiUp : Bool
  ntpUp : Bool
  mqttUp : Bool
deriving DecidableEq

/-- Outcomes of the steps of one cycle: `wifiManager->connect(30,3,5000)`,
`ntpSync->sync("ntp.aliyun.com",3)`, `mqttManager->connect(3)`,
`dhtSensor->read(3,2000)` and the two `publishJson` calls. -/
structure CycleEnv where
  wifiOk : Bool
  ntpOk : Bool
  mqttOk : Bool
  sensorOk : Bool
  pub1Ok : Bool
  pub2Ok : Bool

/-- Terminal state of one cycle: WiFi establishment exhausted
(line 444), MQTT establishment exhausted (line 475), or the cycle ran to
its cleanup phase (possibly degraded by sensor or publish failures). -/
inductive CycleOutcome where
  | failedNetwork
  | failedChannel
  | completed
deriving DecidableEq

/-- Result of one cycle: terminal state, event trace, whether the sensor
records were handed to the publish channel, and — when they were —
whether the `created_at` timestamp came from a clock synced in this
cycle. -/
structure CycleResult where
  outcome : CycleOutcome
  trace : List CEv
  published : Bool
  createdAtSynced : Option Bool
deriving DecidableEq

/-- Effect of one event on the held resources. -/
def applyEv (r : Resources) : CEv → Resources
  | CEv.acqNetwork => { r with wifiUp := true }
  | CEv.relNetwork => { r with wifiUp := false }
  | CEv.acqTimeSync => { r with ntpUp := true }
  | CEv.relTimeSync => { r with ntpUp := false }
  | CEv.acqChannel => { r with mqttUp := true }
  | CEv.relChannel => { r with mqttUp := false }
  | _ => r

/-- The resources still held after running a trace from `r`. -/
def runTrace (r : Resources) (tr : List CEv) : Resources := tr.foldl applyEv r

/-- One body of `loop()` of the timed-connection variant
(esp32_dht22_mqtt.ino lines 398-611), as executed when the read interval
has elapsed.  Phase 1 (lines 410-435) releases leftover resources in the
source's order MQTT, WiFi, NTP; phase 2 (lines 438-455) allocates the
WiFi manager and connects, returning `failedNetwork` after deleting it on
failure; phase 3 (lines 457-468) allocates the NTP handle and syncs,
ignoring failure; phase 4 (lines 470-491) allocates the MQTT manager and
connects, releasing MQTT, NTP, WiFi and returning `failedChannel` on
failure; phase 5 (lines 493-573) reads the sensor and, on success, makes
exactly one `publishJson` call per record whatever each call returns;
the cleanup phase (lines 577-604) releases MQTT, NTP, WiFi. -/
def loopCycle (start : Resources) (e : CycleEnv) : CycleResult :=
  let cleanup : List CEv :=
    (if start.mqttUp then [CEv.relChannel] else []) ++
    (if start.wifiUp then [CEv.relNetwork] else []) ++
    (if start.ntpUp then [CEv.relTimeSync] else [])
  let tr1 := cleanup ++ [CEv.acqNetwork, CEv.probeNet e.wifiOk]
  if e.wifiOk = false then
    { outcome := CycleOutcome.failedNetwork
      trace := tr1 ++ [CEv.relNetwork]
      published := false
      createdAtSynced := none }
  else
    let tr3 := tr1 ++
      [CEv.acqTimeSync, CEv.probeNtp e.ntpOk, CEv.acqChannel, CEv.probeMqtt e.mqttOk]
    if e.mqttOk = false then
      { outcome := CycleOutcome.failedChannel
        trace := tr3 ++ [CEv.relChannel, CEv.relTimeSync, CEv.relNetwork]
        published := false
        createdAtSynced := none }
    else
      let tr4 := tr3 ++ CEv.readSensor e.sensorOk ::
        (if e.sensorOk then [CEv.publish e.pub1Ok, CEv.publish e.pub2Ok] else [])
      { outcome := CycleOutcome.completed
        trace := tr4 ++ [CEv.relChannel, CEv.relTimeSync, CEv.relNetwork]
        published := e.sensorOk
        createdAtSynced := if e.sensorOk then some e.ntpOk else none }

/-- The three logical per-cycle resources of the spec. -/
inductive RKind where
  | network
  | timesync
  | channel
deriving DecidableEq

/-- Projects an event to the resource it acquires, if any. -/
def acqKind : CEv → Option RKind
  | CEv.acqNetwork => some RKind.network
  | CEv.acqTimeSync => some RKind.timesync
  | CEv.acqChannel => some RKind.channel
  | _ => none

/-- Projects an event to the resource it releases, if any. -/
def relKind : CEv → Option RKind
  | CEv.relNetwork => some RKind.network
  | CEv.relTimeSync => some RKind.timesync
  | CEv.relChannel => some RKind.channel
  | _ => none

/-- Recognizes `publishJson` calls in a cycle trace. -/
def isPublishEv : CEv → Bool
  | CEv.publish _ => true
  | _ => false

/-- C-cast-to-`int` semantics on ℚ: truncation toward zero. -/
def truncToZero (q : ℚ) : ℤ := if 0 ≤ q then ⌊q⌋ else ⌈q⌉

/-- The value actually published for a reading `x`:
`((int)(x * 100 + 0.5f)) / 100.0f` (esp32_dht22_mqtt.ino
lines 503-504), over ℚ. -/
def roundPublished (x : ℚ) : ℚ := ((truncToZero (x * 100 + 1 / 2) : ℤ) : ℚ) / 100

/-- Follows the spec's words, for comparison with `roundPublished`:
"the raw values rounded to 2 decimal places" (round half up). -/
def specRound2 (x : ℚ) : ℚ := ((⌊x * 100 + 1 / 2⌋ : ℤ) : ℚ) / 100

end Dht22MqttIno

/-- Environment used to exhibit the C1 counterexample: SSID found on the
scan, the link up at the very first status check of the wait loop
(so the loop body, and with it the watchdog callback, never runs). -/
def c1Env : WiFiManager.Env :=
  { alreadyConnected := false, scanOk := fun _ => true,
    waitPolls := fun _ => 0, linkOk := fun _ => true }

/-- Environment in which the link never comes up: every attempt of the
WiFi retry loop fails. -/
def c1EnvAllFail : WiFiManager.Env :=
  { alreadyConnected := false, scanOk := fun _ => true,
    waitPolls := fun _ => 2, linkOk := fun _ => false }

/-- C1 (counterexample): the claim says that on each attempt the optional
liveness callback is invoked before the probe, also for
`WiFiManager::connect`.  In `WiFiManager::connect` the callback is only
invoked inside the wait loop that follows `WiFi.begin` (NetworkUtils.cpp
lines 120-144); in this call a watchdog callback is supplied
(`hasW = true`), the single attempt carries a probe that succeeds, yet
the callback is never invoked: the trace contains no `feed` event at
all, and in particular none before the probe. -/
theorem c1_counterexample_wifi_callback_skipped :
    (WiFiManager.connect true c1Env 3).1 = true ∧
    (WiFiManager.connect true c1Env 3).2 =
      [WiFiManager.WEv.scan true, WiFiManager.WEv.probeBegin,
        WiFiManager.WEv.probeEnd true] ∧
    (WiFiManager.connect true c1Env 3).2.count WiFiManager.WEv.feed = 0 := by
  decide

/-- C3: every data-collection cycle, whatever the outcome of each step
and whatever resources were still held when it started, ends with no
resource held — hence no connection from one cycle is still up when the
next cycle starts — and in a cycle starting with nothing held the
releases appearing in the cycle's trace are exactly the acquisitions of
that cycle in reverse order (channel, time-sync, network). -/
theorem c3_cycle_releases_everything_in_reverse (w n m a b c d p q : Bool) :
    Dht22MqttIno.runTrace ⟨w, n, m⟩
        (Dht22MqttIno.loopCycle ⟨w, n, m⟩ ⟨a, b, c, d, p, q⟩).trace =
      ⟨false, false, false⟩ ∧
    (Dht22MqttIno.loopCycle ⟨false, false, false⟩ ⟨a, b, c, d, p, q⟩).trace.filterMap
        Dht22MqttIno.relKind =
      ((Dht22MqttIno.loopCycle ⟨false, false, false⟩ ⟨a, b, c, d, p, q⟩).trace.filterMap
        Dht22MqttIno.acqKind).reverse := by
  revert w n m a b c d p q
  decide

/-- C4: when the network step fails (`wifiManager->connect` returned
`false`, i.e. the network probe failed on all configured retries), the
cycle ends in the `failedNetwork` terminal state, the time-sync probe
and the publish-channel probe are never invoked in that cycle, nothing
is published, and all resources are down at the end of the cycle. -/
theorem c4_network_failure_skips_later_probes (w n m t q s p1 p2 : Bool) :
    (Dht22MqttIno.loopCycle ⟨w, n, m⟩ ⟨false, t, q, s, p1, p2⟩).outcome =
      Dht22MqttIno.CycleOutcome.failedNetwork ∧
    (∀ b, Dht22MqttIno.CEv.probeNtp b ∉
      (Dht22MqttIno.loopCycle ⟨w, n, m⟩ ⟨false, t, q, s, p1, p2⟩).trace) ∧
    (∀ b, Dht22MqttIno.CEv.probeMqtt b ∉
      (Dht22MqttIno.loopCycle ⟨w, n, m⟩ ⟨false, t, q, s, p1, p2⟩).trace) ∧
    (Dht22MqttIno.loopCycle ⟨w, n, m⟩ ⟨false, t, q, s, p1, p2⟩).published = false ∧
    Dht22MqttIno.runTrace ⟨w, n, m⟩
        (Dht22MqttIno.loopCycle ⟨w, n, m⟩ ⟨false, t, q, s, p1, p2⟩).trace =
      ⟨false, false, false⟩ := by
  revert w n m t q s p1 p2
  decide

/-- C5: when the network and publish-channel probes succeed and the
sensor read succeeds but the time-sync probe fails on all retries, the
cycle still establishes the channel, reads the sensor and hands both
records to the publish channel (terminal state `completed`,
`published = true`), with a `created_at` timestamp not synced in this
cycle; the time-sync failure never aborts the cycle. -/
theorem c5_timesync_failure_is_nonfatal (w n m p1 p2 : Bool) :
    (Dht22MqttIno.loopCycle ⟨w, n, m⟩ ⟨true, false, true, true, p1, p2⟩).outcome =
      Dht22MqttIno.CycleOutcome.completed ∧
    (Dht22MqttIno.loopCycle ⟨w, n, m⟩ ⟨true, false, true, true, p1, p2⟩).published = true ∧
    (Dht22MqttIno.loopCycle ⟨w, n, m⟩ ⟨true, false, true, true, p1, p2⟩).createdAtSynced =
      some false ∧
    Dht22MqttIno.CEv.acqChannel ∈
      (Dht22MqttIno.loopCycle ⟨w, n, m⟩ ⟨true, false, true, true, p1, p2⟩).trace ∧
    Dht22MqttIno.CEv.readSensor true ∈
      (Dht22MqttIno.loopCycle ⟨w, n, m⟩ ⟨true, false, true, true, p1, p2⟩).trace ∧
    Dht22MqttIno.CEv.publish p1 ∈
      (Dht22MqttIno.loopCycle ⟨w, n, m⟩ ⟨true, false, true, true, p1, p2⟩).trace ∧
    Dht22MqttIno.CEv.publish p2 ∈
      (Dht22MqttIno.loopCycle ⟨w, n, m⟩ ⟨true, false, true, true, p1, p2⟩).trace := by
  revert w n m p1 p2
  decide

/-- C8 (counterexample): the claim says every failing publish call
increments the error counter.  In `MQTTClientManager::publish`
(MQTTClientManager.cpp lines 141-144) a publish attempted while the
channel is not connected returns `false` without transmitting and
without touching `_errorCount`: here the call fails and the whole state,
error counter included, is unchanged. -/
theorem c8_counterexample_failure_not_counted :
    (MQTTClientManager.publish ⟨false, false, 0, 0, 0⟩ true).1 = false ∧
    (MQTTClientManager.publish ⟨false, false, 0, 0, 0⟩ true).2 =
      ⟨false, false, 0, 0, 0⟩ := by
  decide

/-- C9 (counterexample): the claim says the published values equal the
raw values rounded to 2 decimal places, for temperatures down to -40.
The source computes `((int)(x * 100 + 0.5f)) / 100.0f`
(esp32_dht22_mqtt.ino lines 503-504), and the C cast truncates toward
zero: at the raw temperature -40 the published value is -39.99, while
-40 rounded to 2 decimal places is -40. -/
theorem c9_counterexample_negative_rounding :
    Dht22MqttIno.roundPublished (-40) = -3999 / 100 ∧
    Dht22MqttIno.specRound2 (-40) = -40 ∧
    Dht22MqttIno.roundPublished (-40) ≠ Dht22MqttIno.specRound2 (-40) := by
  have hc : (⌈((-40 : ℚ) * 100 + 1 / 2)⌉ : ℤ) = -3999 := by
    rw [Int.ceil_eq_iff]; norm_num
  have hf : (⌊((-40 : ℚ) * 100 + 1 / 2)⌋ : ℤ) = -4000 := by
    rw [Int.floor_eq_iff]; norm_num
  have hneg : ¬((0 : ℚ) ≤ (-40 : ℚ) * 100 + 1 / 2) := by norm_num
  refine ⟨?_, ?_, ?_⟩
  · simp only [Dht22MqttIno.roundPublished, Dht22MqttIno.truncToZero, if_neg hneg, hc]
    norm_num
  · simp only [Dht22MqttIno.specRound2, hf]
    norm_num
  · simp only [Dht22MqttIno.roundPublished, Dht22MqttIno.specRound2,
      Dht22MqttIno.truncToZero, if_neg hneg, hc, hf]
    norm_num

/-- C9 (amended): the published value equals
`((int)(x * 100 + 0.5f)) / 100.0f`; for a nonnegative raw value (every
humidity, and nonnegative temperatures) the cast truncation agrees with
rounding half up to 2 decimal places, so the published value is the raw
value rounded to 2 decimal places.  For negative raw values the cast
truncates toward zero instead, so the published value can differ from
the rounded raw value (see the counterexample at -40). -/
theorem c9_amended_nonneg_rounding (x : ℚ) (hx : 0 ≤ x) :
    Dht22MqttIno.roundPublished x = Dht22MqttIno.specRound2 x := by
  have h : (0 : ℚ) ≤ x * 100 + 1 / 2 := by positivity
  simp only [Dht22MqttIno.roundPublished, Dht22MqttIno.specRound2,
    Dht22MqttIno.truncToZero, if_pos h]

/-- C9 witness: the amended rounding equation at the concrete raw value
20.35. -/
theorem c9_amended_nonneg_rounding_witness :
    Dht22MqttIno.roundPublished (407 / 20) = Dht22MqttIno.specRound2 (407 / 20) :=
  c9_amended_nonneg_rounding (407 / 20) (by norm_num)

/-- C8 (amended): a publish attempted while the channel is not connected
returns `false` without transmitting and without changing any state
(in particular the error counter is not incremented); a publish whose
transmission fails increments the error counter and returns `false`;
and within one cycle each record is handed to `publishJson` exactly
once — a failed publish is not retried — after which the cycle still
proceeds to the release step (the trace ends with the three releases in
reverse order of acquisition). -/
theorem c8_amended_publish_failure_semantics (st : MQTTClientManager.MqttState)
    (txOk w n m t p1 p2 : Bool) :
    ((st.isConnected && st.clientConnected) = false →
      MQTTClientManager.publish st txOk = (false, st)) ∧
    ((st.isConnected && st.clientConnected) = true →
      MQTTClientManager.publish st false =
        (false, { st with errorCount := st.errorCount + 1 })) ∧
    (Dht22MqttIno.loopCycle ⟨w, n, m⟩ ⟨true, t, true, true, p1, p2⟩).trace.countP
        Dht22MqttIno.isPublishEv = 2 ∧
    ([Dht22MqttIno.CEv.relChannel, Dht22MqttIno.CEv.relTimeSync,
        Dht22MqttIno.CEv.relNetwork].isSuffixOf
      (Dht22MqttIno.loopCycle ⟨w, n, m⟩ ⟨true, t, true, true, p1, p2⟩).trace) = true := by
  refine ⟨?_, ?_, ?_, ?_⟩
  · intro hcon
    simp [MQTTClientManager.publish, hcon]
  · intro hcon
    simp [MQTTClientManager.publish, hcon]
  · revert w n m t p1 p2
    decide
  · revert w n m t p1 p2
    decide

/-- C8 witness: the amended publish semantics evaluated at a
disconnected state and at a connected state with a failing transmission. -/
theorem c8_amended_publish_failure_semantics_witness :
    MQTTClientManager.publish ⟨false, false, 0, 0, 0⟩ true =
      (false, ⟨false, false, 0, 0, 0⟩) ∧
    MQTTClientManager.publish ⟨true, true, 3, 4, 5⟩ false =
      (false, ⟨true, true, 3, 4, 6⟩) :=
  ⟨(c8_amended_publish_failure_semantics ⟨false, false, 0, 0, 0⟩
      true true true true true true true).1 rfl,
   (c8_amended_publish_failure_semantics ⟨true, true, 3, 4, 5⟩
      false true true true true true true).2.1 rfl⟩

/-- C6: for every sensor state, `getStatistics` reports
`successRate = (totalAttempts - totalErrors) / totalAttempts * 100`
whenever `totalAttempts > 0`, and `successRate = 0` when
`totalAttempts = 0`. -/
theorem c6_success_rate_formula (s : DHT22Sensor.SensorState) :
    (0 < s.readCount →
      (DHT22Sensor.getStatistics s).successRate =
        ((s.readCount : ℚ) - (s.errorCount : ℚ)) / (s.readCount : ℚ) * 100) ∧
    (s.readCount = 0 → (DHT22Sensor.getStatistics s).successRate = 0) := by
  constructor
  · intro hpos
    simp [DHT22Sensor.getStatistics, Nat.pos_iff_ne_zero.mp hpos]
  · intro hzero
    simp [DHT22Sensor.getStatistics, hzero]

/-- C6 witness: a state with 4 attempts and 1 error reports a success
rate of 75 %. -/
theorem c6_success_rate_formula_witness :
    (DHT22Sensor.getStatistics ⟨4, 1, none, none, 0, 0⟩).successRate = 75 := by
  have h := (c6_success_rate_formula ⟨4, 1, none, none, 0, 0⟩).1 (by norm_num)
  rw [h]
  norm_num

/-- C7: for every sensor state, `resetStatistics` followed by
`getStatistics` yields all-zero counters with `successRate = 0`, and
`resetStatistics` leaves the smoothing baselines `lastValidTemperature`
and `lastValidHumidity` unchanged.  (`getStatistics` itself is declared
`const` in DHT22Sensor.h line 53 and is embedded as a pure function of
the state, so it modifies no state.) -/
theorem c7_reset_statistics_zeroes_counters (s : DHT22Sensor.SensorState) :
    DHT22Sensor.getStatistics (DHT22Sensor.resetStatistics s) =
      { totalReads := 0, errors := 0, successRate := 0,
        anomalyCount := 0, consecutiveAnomalyCount := 0 } ∧
    (DHT22Sensor.resetStatistics s).lastValidTemperature = s.lastValidTemperature ∧
    (DHT22Sensor.resetStatistics s).lastValidHumidity = s.lastValidHumidity :=
  ⟨rfl, rfl, rfl⟩

/-- The drift-smoothing step never leaves the consecutive-outlier
counter above the ceiling: an accepted or force-accepted sample resets
it to 0, and a substituted outlier only increments it when the
incremented value still does not exceed the ceiling. -/
theorem checkDataChange_consecutive_le (st : DHT22Sensor.SensorState) (t h : ℚ) :
    (DHT22Sensor.checkDataChange st t h).1.consecutiveAnomalyCount ≤
      DHT22Sensor.MAX_ANOMALY_COUNT := by
  rcases h1 : st.lastValidTemperature with _ | lt <;>
    rcases h2 : st.lastValidHumidity with _ | lh <;>
      simp only [DHT22Sensor.checkDataChange, h1, h2, DHT22Sensor.MAX_ANOMALY_COUNT] <;>
        (try split_ifs with ha hb) <;> (try simp) <;> omega

/-- Folding the drift-smoothing step preserves the counter ceiling. -/
theorem processSamples_consecutive_le (samples : List (ℚ × ℚ)) :
    ∀ st : DHT22Sensor.SensorState,
      st.consecutiveAnomalyCount ≤ DHT22Sensor.MAX_ANOMALY_COUNT →
      (DHT22Sensor.processSamples st samples).consecutiveAnomalyCount ≤
        DHT22Sensor.MAX_ANOMALY_COUNT := by
  induction samples with
  | nil => exact fun st hst => hst
  | cons p rest ih =>
    intro st hst
    exact ih ((DHT22Sensor.checkDataChange st p.1 p.2).1)
      (checkDataChange_consecutive_le st p.1 p.2)

/-- C2: over every sequence of raw samples processed by the
drift-smoothing step from the initial state, `consecutiveAnomalyCount`
never exceeds the ceiling `MAX_ANOMALY_COUNT = 3`; and whenever the
counter stands at the ceiling and another outlier arrives (so the
counter would pass the ceiling), the raw sample is force-accepted as the
new baseline and the counter is reset to 0. -/
theorem c2_consecutive_anomaly_bounded (samples : List (ℚ × ℚ)) :
    (DHT22Sensor.processSamples DHT22Sensor.initialState
        samples).consecutiveAnomalyCount ≤ DHT22Sensor.MAX_ANOMALY_COUNT ∧
    (∀ (st : DHT22Sensor.SensorState) (lt lh t h : ℚ),
      st.lastValidTemperature = some lt → st.lastValidHumidity = some lh →
      ¬(|t - lt| < DHT22Sensor.MAX_CHANGE_THRESHOLD ∧
        |h - lh| < DHT22Sensor.MAX_CHANGE_THRESHOLD) →
      st.consecutiveAnomalyCount = DHT22Sensor.MAX_ANOMALY_COUNT →
      (DHT22Sensor.checkDataChange st t h).1.consecutiveAnomalyCount = 0 ∧
      (DHT22Sensor.checkDataChange st t h).1.lastValidTemperature = some t ∧
      (DHT22Sensor.checkDataChange st t h).1.lastValidHumidity = some h) := by
  constructor
  · exact processSamples_consecutive_le samples DHT22Sensor.initialState
      (by simp [DHT22Sensor.initialState, DHT22Sensor.MAX_ANOMALY_COUNT])
  · intro st lt lh t h h1 h2 hout hc
    simp only [DHT22Sensor.checkDataChange, h1, h2, if_neg hout,
      if_pos (show st.consecutiveAnomalyCount + 1 > DHT22Sensor.MAX_ANOMALY_COUNT by
        rw [hc]; simp [DHT22Sensor.MAX_ANOMALY_COUNT])]
    simp

/-- C2 witness: from a baseline (20, 50) with the counter at the
ceiling, the outlier sample (30, 50) is force-accepted as the new
baseline and the counter resets to 0. -/
theorem c2_consecutive_anomaly_bounded_witness :
    (DHT22Sensor.checkDataChange ⟨9, 2, some 20, some 50, 3, 5⟩
        30 50).1.consecutiveAnomalyCount = 0 ∧
    (DHT22Sensor.checkDataChange ⟨9, 2, some 20, some 50, 3, 5⟩
        30 50).1.lastValidTemperature = some 30 ∧
    (DHT22Sensor.checkDataChange ⟨9, 2, some 20, some 50, 3, 5⟩
        30 50).1.lastValidHumidity = some 50 :=
  (c2_consecutive_anomaly_bounded []).2 ⟨9, 2, some 20, some 50, 3, 5⟩ 20 50 30 50
    rfl rfl (by norm_num [DHT22Sensor.MAX_CHANGE_THRESHOLD]) rfl

/-- `probesFedBefore` consumes a feed immediately followed by a probe. -/
theorem probesFedBefore_feed_probe (b : Bool) (l : List MQTTClientManager.MEv) :
    MQTTClientManager.probesFedBefore
        (MQTTClientManager.MEv.feed :: MQTTClientManager.MEv.probe b :: l) =
      MQTTClientManager.probesFedBefore l := rfl

/-- `probesFedBefore` skips a sleep event. -/
theorem probesFedBefore_sleep (l : List MQTTClientManager.MEv) :
    MQTTClientManager.probesFedBefore (MQTTClientManager.MEv.sleep :: l) =
      MQTTClientManager.probesFedBefore l := rfl

/-- `probesFedBefore` skips a wifiFail event. -/
theorem probesFedBefore_wifiFail (l : List MQTTClientManager.MEv) :
    MQTTClientManager.probesFedBefore (MQTTClientManager.MEv.wifiFail :: l) =
      MQTTClientManager.probesFedBefore l := rfl

/-- `failThenSleep` skips a feed event. -/
theorem mqtt_failThenSleep_feed (l : List MQTTClientManager.MEv) :
    MQTTClientManager.failThenSleep (MQTTClientManager.MEv.feed :: l) =
      MQTTClientManager.failThenSleep l := rfl

/-- `failThenSleep` skips a wifiFail event. -/
theorem mqtt_failThenSleep_wifiFail (l : List MQTTClientManager.MEv) :
    MQTTClientManager.failThenSleep (MQTTClientManager.MEv.wifiFail :: l) =
      MQTTClientManager.failThenSleep l := rfl

/-- `failThenSleep` skips a successful probe event. -/
theorem mqtt_failThenSleep_probe_true (l : List MQTTClientManager.MEv) :
    MQTTClientManager.failThenSleep (MQTTClientManager.MEv.probe true :: l) =
      MQTTClientManager.failThenSleep l := rfl

/-- `failThenSleep` accepts a trace ending in a failed probe. -/
theorem mqtt_failThenSleep_probe_false_last :
    MQTTClientManager.failThenSleep [MQTTClientManager.MEv.probe false] = true := rfl

/-- `failThenSleep` consumes a failed probe immediately followed by a sleep. -/
theorem mqtt_failThenSleep_probe_false_sleep (l : List MQTTClientManager.MEv) :
    MQTTClientManager.failThenSleep (MQTTClientManager.MEv.probe false ::
        MQTTClientManager.MEv.sleep :: l) =
      MQTTClientManager.failThenSleep (MQTTClientManager.MEv.sleep :: l) := by
  simp [MQTTClientManager.failThenSleep]

/-- In every trace of the MQTT retry loop run with a watchdog callback,
each broker probe is immediately preceded by a watchdog feed. -/
theorem mqtt_connectGo_probesFedBefore (wifiUp probeOk : Nat → Bool) :
    ∀ k i, MQTTClientManager.probesFedBefore
      (MQTTClientManager.connectGo wifiUp probeOk true k i).2 = true := by
  intro k
  induction k with
  | zero => intro i; rfl
  | succ k ih =>
    intro i
    by_cases hw : wifiUp i = false
    · simp [MQTTClientManager.connectGo, hw, probesFedBefore_wifiFail,
        MQTTClientManager.probesFedBefore]
    · by_cases hp : probeOk i = true
      · simp [MQTTClientManager.connectGo, hw, hp, probesFedBefore_feed_probe,
          MQTTClientManager.probesFedBefore]
      · by_cases hk : k = 0
        · simp [MQTTClientManager.connectGo, hw, hp, hk, probesFedBefore_feed_probe,
            MQTTClientManager.probesFedBefore]
        · simp [MQTTClientManager.connectGo, hw, hp, hk, probesFedBefore_feed_probe,
            probesFedBefore_sleep, ih (i + 1)]

/-- When the MQTT retry loop returns success, its trace ends with the
successful probe: no sleep (and no further event at all) follows it. -/
theorem mqtt_connectGo_success_suffix (wifiUp probeOk : Nat → Bool) (hasW : Bool) :
    ∀ k i, (MQTTClientManager.connectGo wifiUp probeOk hasW k i).1 = true →
      ∃ tr, (MQTTClientManager.connectGo wifiUp probeOk hasW k i).2 =
        tr ++ [MQTTClientManager.MEv.probe true] := by
  intro k
  induction k with
  | zero =>
    intro i hres
    exact absurd hres (by simp [MQTTClientManager.connectGo])
  | succ k ih =>
    intro i hres
    by_cases hw : wifiUp i = false
    · exact absurd hres (by simp [MQTTClientManager.connectGo, hw])
    · by_cases hp : probeOk i = true
      · refine ⟨if hasW then [MQTTClientManager.MEv.feed] else [], ?_⟩
        simp [MQTTClientManager.connectGo, hw, hp]
      · by_cases hk : k = 0
        · exact absurd hres (by simp [MQTTClientManager.connectGo, hw, hp, hk])
        · have hres2 : (MQTTClientManager.connectGo wifiUp probeOk hasW k (i + 1)).1 = true := by
            simpa [MQTTClientManager.connectGo, hw, hp, hk] using hres
          obtain ⟨tr, htr⟩ := ih (i + 1) hres2
          refine ⟨(if hasW then [MQTTClientManager.MEv.feed] else []) ++
            MQTTClientManager.MEv.probe false :: MQTTClientManager.MEv.sleep :: tr, ?_⟩
          simp [MQTTClientManager.connectGo, hw, hp, hk, htr]

/-- In every trace of the MQTT retry loop, a failed probe that is not
the last event is immediately followed by the retry sleep. -/
theorem mqtt_connectGo_failThenSleep (wifiUp probeOk : Nat → Bool) (hasW : Bool) :
    ∀ k i, MQTTClientManager.failThenSleep
      (MQTTClientManager.connectGo wifiUp probeOk hasW k i).2 = true := by
  intro k
  induction k with
  | zero => intro i; rfl
  | succ k ih =>
    intro i
    by_cases hw : wifiUp i = false
    · cases hasW <;>
        simp [MQTTClientManager.connectGo, hw, mqtt_failThenSleep_feed,
          mqtt_failThenSleep_wifiFail, MQTTClientManager.failThenSleep]
    · by_cases hp : probeOk i = true
      · cases hasW <;>
          simp [MQTTClientManager.connectGo, hw, hp, mqtt_failThenSleep_feed,
            mqtt_failThenSleep_probe_true, MQTTClientManager.failThenSleep]
      · by_cases hk : k = 0
        · cases hasW <;>
            simp [MQTTClientManager.connectGo, hw, hp, hk, mqtt_failThenSleep_feed,
              mqtt_failThenSleep_probe_false_last, MQTTClientManager.failThenSleep]
        · cases hasW <;>
            simp [MQTTClientManager.connectGo, hw, hp, hk, mqtt_failThenSleep_feed,
              mqtt_failThenSleep_probe_false_sleep, probesFedBefore_sleep,
              MQTTClientManager.failThenSleep, ih (i + 1)]

/-- When every broker probe fails, the MQTT retry loop returns failure. -/
theorem mqtt_connectGo_all_fail (wifiUp probeOk : Nat → Bool) (hasW : Bool)
    (hall : ∀ j, probeOk j = false) :
    ∀ k i, (MQTTClientManager.connectGo wifiUp probeOk hasW k i).1 = false := by
  intro k
  induction k with
  | zero => intro i; rfl
  | succ k ih =>
    intro i
    by_cases hw : wifiUp i = false
    · simp [MQTTClientManager.connectGo, hw]
    · by_cases hk : k = 0
      · simp [MQTTClientManager.connectGo, hw, hk, hall i]
      · simp [MQTTClientManager.connectGo, hw, hk, hall i, ih (i + 1)]

/-- When the WiFi-down check fires inside the MQTT retry loop, the call
returns `false` and the trace ends at that event: no probe and no sleep
follows, and fewer probes than the attempt budget were consumed. -/
theorem mqtt_connectGo_wifiFail_aborts (wifiUp probeOk : Nat → Bool) (hasW : Bool) :
    ∀ k i, MQTTClientManager.MEv.wifiFail ∈
        (MQTTClientManager.connectGo wifiUp probeOk hasW k i).2 →
      (MQTTClientManager.connectGo wifiUp probeOk hasW k i).1 = false ∧
      (∃ tr, (MQTTClientManager.connectGo wifiUp probeOk hasW k i).2 =
        tr ++ [MQTTClientManager.MEv.wifiFail]) ∧
      (MQTTClientManager.connectGo wifiUp probeOk hasW k i).2.countP
        MQTTClientManager.isProbe < k := by
  intro k
  induction k with
  | zero =>
    intro i hmem
    exact absurd hmem (by simp [MQTTClientManager.connectGo])
  | succ k ih =>
    intro i hmem
    by_cases hw : wifiUp i = false
    · refine ⟨by simp [MQTTClientManager.connectGo, hw],
        ⟨if hasW then [MQTTClientManager.MEv.feed] else [],
          by simp [MQTTClientManager.connectGo, hw]⟩, ?_⟩
      cases hasW <;>
        simp [MQTTClientManager.connectGo, hw, MQTTClientManager.isProbe]
    · by_cases hp : probeOk i = true
      · exfalso
        cases hasW <;> simp [MQTTClientManager.connectGo, hw, hp] at hmem
      · by_cases hk : k = 0
        · exfalso
          cases hasW <;> simp [MQTTClientManager.connectGo, hw, hp, hk] at hmem
        · have hmem2 : MQTTClientManager.MEv.wifiFail ∈
              (MQTTClientManager.connectGo wifiUp probeOk hasW k (i + 1)).2 := by
            cases hasW <;> simpa [MQTTClientManager.connectGo, hw, hp, hk] using hmem
          obtain ⟨hres, ⟨tr, htr⟩, hcount⟩ := ih (i + 1) hmem2
          refine ⟨by simp [MQTTClientManager.connectGo, hw, hp, hk, hres],
            ⟨(if hasW then [MQTTClientManager.MEv.feed] else []) ++
              MQTTClientManager.MEv.probe false :: MQTTClientManager.MEv.sleep :: tr,
              by simp [MQTTClientManager.connectGo, hw, hp, hk, htr]⟩, ?_⟩
          have hcnt : (MQTTClientManager.connectGo wifiUp probeOk hasW (k + 1) i).2.countP
              MQTTClientManager.isProbe =
              1 + (MQTTClientManager.connectGo wifiUp probeOk hasW k (i + 1)).2.countP
                MQTTClientManager.isProbe := by
            cases hasW <;>
              simp [MQTTClientManager.connectGo, hw, hp, hk,
                MQTTClientManager.isProbe, Nat.add_comm]
          rw [hcnt]
          omega

/-- `WiFiManager.failThenSleep` skips a scan event. -/
theorem wifi_failThenSleep_scan (b : Bool) (l : List WiFiManager.WEv) :
    WiFiManager.failThenSleep (WiFiManager.WEv.scan b :: l) =
      WiFiManager.failThenSleep l := rfl

/-- `WiFiManager.failThenSleep` skips a probe-begin event. -/
theorem wifi_failThenSleep_probeBegin (l : List WiFiManager.WEv) :
    WiFiManager.failThenSleep (WiFiManager.WEv.probeBegin :: l) =
      WiFiManager.failThenSleep l := rfl

/-- `WiFiManager.failThenSleep` skips a feed event. -/
theorem wifi_failThenSleep_feed (l : List WiFiManager.WEv) :
    WiFiManager.failThenSleep (WiFiManager.WEv.feed :: l) =
      WiFiManager.failThenSleep l := rfl

/-- `WiFiManager.failThenSleep` skips a sleep event. -/
theorem wifi_failThenSleep_sleep (l : List WiFiManager.WEv) :
    WiFiManager.failThenSleep (WiFiManager.WEv.sleep :: l) =
      WiFiManager.failThenSleep l := rfl

/-- `WiFiManager.failThenSleep` skips a successful probe end. -/
theorem wifi_failThenSleep_probeEnd_true (l : List WiFiManager.WEv) :
    WiFiManager.failThenSleep (WiFiManager.WEv.probeEnd true :: l) =
      WiFiManager.failThenSleep l := rfl

/-- `WiFiManager.failThenSleep` accepts a trace ending in a failed
attempt. -/
theorem wifi_failThenSleep_probeEnd_false_last :
    WiFiManager.failThenSleep [WiFiManager.WEv.probeEnd false] = true := rfl

/-- `WiFiManager.failThenSleep` consumes a failed attempt immediately
followed by the retry sleep. -/
theorem wifi_failThenSleep_probeEnd_false_sleep (l : List WiFiManager.WEv) :
    WiFiManager.failThenSleep (WiFiManager.WEv.probeEnd false ::
        WiFiManager.WEv.sleep :: l) =
      WiFiManager.failThenSleep (WiFiManager.WEv.sleep :: l) := by
  simp [WiFiManager.failThenSleep]

/-- `WiFiManager.failThenSleep` skips the feeds of a wait loop. -/
theorem wifi_failThenSleep_replicate_feed (n : Nat) (l : List WiFiManager.WEv) :
    WiFiManager.failThenSleep (List.replicate n WiFiManager.WEv.feed ++ l) =
      WiFiManager.failThenSleep l := by
  induction n with
  | zero => rfl
  | succ n ih =>
    rw [List.replicate_succ]
    exact ih

/-- `WiFiManager.failThenSleep` over the events of one attempt followed
by a rest whose head is not reached by a failed probe end: the attempt
events reduce to the attempt's outcome. -/
theorem wifi_failThenSleep_attempt (hasW : Bool) (e : WiFiManager.Env) (i : Nat)
    (l : List WiFiManager.WEv) :
    WiFiManager.failThenSleep (WiFiManager.attemptEvents hasW e i ++ l) =
      WiFiManager.failThenSleep (WiFiManager.WEv.probeEnd (e.linkOk i) :: l) := by
  simp only [WiFiManager.attemptEvents, List.cons_append, List.append_assoc,
    List.singleton_append]
  rw [wifi_failThenSleep_probeBegin]
  cases hasW
  · rfl
  · exact wifi_failThenSleep_replicate_feed _ _

/-- When the WiFi retry loop returns success, its trace ends with the
successful attempt: no retry sleep (and no further event) follows it. -/
theorem wifi_connectGo_success_suffix (hasW : Bool) (e : WiFiManager.Env) :
    ∀ k i, (WiFiManager.connectGo hasW e k i).1 = true →
      ∃ tr, (WiFiManager.connectGo hasW e k i).2 =
        tr ++ [WiFiManager.WEv.probeEnd true] := by
  intro k
  induction k with
  | zero =>
    intro i hres
    exact absurd hres (by simp [WiFiManager.connectGo])
  | succ k ih =>
    intro i hres
    by_cases hs : WiFiManager.needScan i = true ∧ e.scanOk i = false
    · by_cases hk : k = 0
      · exact absurd hres (by simp [WiFiManager.connectGo, hs, hk])
      · have hres2 : (WiFiManager.connectGo hasW e k (i + 1)).1 = true := by
          simpa [WiFiManager.connectGo, hs, hk] using hres
        obtain ⟨tr, htr⟩ := ih (i + 1) hres2
        refine ⟨WiFiManager.WEv.scan false :: WiFiManager.WEv.sleep :: tr, ?_⟩
        simp [WiFiManager.connectGo, hs, hk, htr]
    · by_cases hl : e.linkOk i = true
      · refine ⟨(if WiFiManager.needScan i then [WiFiManager.WEv.scan true] else []) ++
          WiFiManager.WEv.probeBegin ::
            (if hasW then List.replicate (e.waitPolls i) WiFiManager.WEv.feed else []), ?_⟩
        simp [WiFiManager.connectGo, hs, hl, WiFiManager.attemptEvents]
      · by_cases hk : k = 0
        · exact absurd hres (by simp [WiFiManager.connectGo, hs, hl, hk])
        · have hres2 : (WiFiManager.connectGo hasW e k (i + 1)).1 = true := by
            simpa [WiFiManager.connectGo, hs, hl, hk] using hres
          obtain ⟨tr, htr⟩ := ih (i + 1) hres2
          refine ⟨(if WiFiManager.needScan i then [WiFiManager.WEv.scan true] else []) ++
            WiFiManager.attemptEvents hasW e i ++ WiFiManager.WEv.sleep :: tr, ?_⟩
          simp [WiFiManager.connectGo, hs, hl, hk, htr]

/-- `WiFiManager.failThenSleep` accepts the empty trace. -/
theorem wifi_failThenSleep_nil : WiFiManager.failThenSleep [] = true := rfl

/-- `WiFiManager.failThenSleep` accepts a trace that is one successful
attempt. -/
theorem wifi_failThenSleep_single_true :
    WiFiManager.failThenSleep [WiFiManager.WEv.probeEnd true] = true := rfl

/-- The scan prefix and the attempt events of one attempt reduce under
`WiFiManager.failThenSleep` to the attempt outcome. -/
theorem wifi_failThenSleep_pre (hasW : Bool) (e : WiFiManager.Env) (i : Nat)
    (l : List WiFiManager.WEv) :
    WiFiManager.failThenSleep
        ((if WiFiManager.needScan i then [WiFiManager.WEv.scan true] else []) ++
          (WiFiManager.attemptEvents hasW e i ++ l)) =
      WiFiManager.failThenSleep (WiFiManager.WEv.probeEnd (e.linkOk i) :: l) := by
  by_cases hn : WiFiManager.needScan i = true
  · simp only [hn, if_pos, List.singleton_append]
    rw [wifi_failThenSleep_scan]
    exact wifi_failThenSleep_attempt hasW e i l
  · simp only [hn, if_neg, List.nil_append, Bool.false_eq_true, ite_false]
    exact wifi_failThenSleep_attempt hasW e i l

/-- As `wifi_failThenSleep_pre`, with no following events. -/
theorem wifi_failThenSleep_pre_nil (hasW : Bool) (e : WiFiManager.Env) (i : Nat) :
    WiFiManager.failThenSleep
        ((if WiFiManager.needScan i then [WiFiManager.WEv.scan true] else []) ++
          WiFiManager.attemptEvents hasW e i) =
      WiFiManager.failThenSleep [WiFiManager.WEv.probeEnd (e.linkOk i)] := by
  have h := wifi_failThenSleep_pre hasW e i []
  simpa using h

/-- In every trace of the WiFi retry loop, a failed attempt that is not
the last event is immediately followed by the retry sleep. -/
theorem wifi_connectGo_failThenSleep (hasW : Bool) (e : WiFiManager.Env) :
    ∀ k i, WiFiManager.failThenSleep (WiFiManager.connectGo hasW e k i).2 = true := by
  intro k
  induction k with
  | zero => intro i; rfl
  | succ k ih =>
    intro i
    by_cases hs : WiFiManager.needScan i = true ∧ e.scanOk i = false
    · by_cases hk : k = 0
      · simp [WiFiManager.connectGo, hs, hk, wifi_failThenSleep_scan,
          wifi_failThenSleep_nil]
      · simp [WiFiManager.connectGo, hs, hk, wifi_failThenSleep_scan,
          wifi_failThenSleep_sleep, ih (i + 1)]
    · by_cases hl : e.linkOk i = true
      · have hpre := wifi_failThenSleep_pre_nil hasW e i
        simp [WiFiManager.connectGo, hs, hl, hpre, wifi_failThenSleep_single_true]
      · have hl2 : e.linkOk i = false := by
          cases hcase : e.linkOk i
          · rfl
          · exact absurd hcase hl
        by_cases hk : k = 0
        · have hpre := wifi_failThenSleep_pre_nil hasW e i
          simp [WiFiManager.connectGo, hs, hl2, hk, hpre,
            wifi_failThenSleep_probeEnd_false_last]
        · have hpre := wifi_failThenSleep_pre hasW e i
            (WiFiManager.WEv.sleep :: (WiFiManager.connectGo hasW e k (i + 1)).2)
          simp [WiFiManager.connectGo, hs, hl2, hk, hpre,
            wifi_failThenSleep_probeEnd_false_sleep, wifi_failThenSleep_sleep,
            ih (i + 1)]

/-- When the link never comes up and it is not already up, the WiFi
retry loop returns failure. -/
theorem wifi_connectGo_all_fail (hasW : Bool) (e : WiFiManager.Env)
    (hall : ∀ j, e.linkOk j = false) :
    ∀ k i, (WiFiManager.connectGo hasW e k i).1 = false := by
  intro k
  induction k with
  | zero => intro i; rfl
  | succ k ih =>
    intro i
    by_cases hs : WiFiManager.needScan i = true ∧ e.scanOk i = false
    · by_cases hk : k = 0
      · simp [WiFiManager.connectGo, hs, hk]
      · simp [WiFiManager.connectGo, hs, hk, ih (i + 1)]
    · by_cases hk : k = 0
      · simp [WiFiManager.connectGo, hs, hk, hall i]
      · simp [WiFiManager.connectGo, hs, hk, hall i, ih (i + 1)]

/-- C1 (amended): for every call to `MQTTClientManager::connect`, on
each attempt the provided liveness callback is invoked before the probe
(every probe in the trace is immediately preceded by a feed); for
`WiFiManager::connect` no callback invocation before the probe is
guaranteed — the callback runs inside the wait loop that follows
`WiFi.begin`, zero times when the link is up at the first status check
(see the counterexample).  For both functions: if the probe succeeds
the call returns success immediately, with no sleeping and no further
event after the successful probe; if the probe fails and attempts
remain the call sleeps the configured retry delay and then retries
(every non-final failed probe is immediately followed by a sleep); and
if all attempts' probes fail the call returns failure. -/
theorem c1_amended_retry_loops (wifiUp probeOk : Nat → Bool) (n : Nat)
    (hasW : Bool) (e : WiFiManager.Env) (m : Nat) :
    (hasW = true →
      MQTTClientManager.probesFedBefore
        (MQTTClientManager.connect wifiUp probeOk n hasW).2 = true) ∧
    ((MQTTClientManager.connect wifiUp probeOk n hasW).1 = true →
      ∃ tr, (MQTTClientManager.connect wifiUp probeOk n hasW).2 =
        tr ++ [MQTTClientManager.MEv.probe true]) ∧
    MQTTClientManager.failThenSleep
      (MQTTClientManager.connect wifiUp probeOk n hasW).2 = true ∧
    ((∀ j, probeOk j = false) →
      (MQTTClientManager.connect wifiUp probeOk n hasW).1 = false) ∧
    ((WiFiManager.connect hasW e m).1 = true →
      e.alreadyConnected = true ∨
        ∃ tr, (WiFiManager.connect hasW e m).2 =
          tr ++ [WiFiManager.WEv.probeEnd true]) ∧
    WiFiManager.failThenSleep (WiFiManager.connect hasW e m).2 = true ∧
    (e.alreadyConnected = false → (∀ j, e.linkOk j = false) →
      (WiFiManager.connect hasW e m).1 = false) := by
  refine ⟨?_, ?_, ?_, ?_, ?_, ?_, ?_⟩
  · intro hW
    subst hW
    exact mqtt_connectGo_probesFedBefore wifiUp probeOk n 0
  · exact mqtt_connectGo_success_suffix wifiUp probeOk hasW n 0
  · exact mqtt_connectGo_failThenSleep wifiUp probeOk hasW n 0
  · intro hall
    exact mqtt_connectGo_all_fail wifiUp probeOk hasW hall n 0
  · intro hres
    by_cases ha : e.alreadyConnected = true
    · exact Or.inl ha
    · have ha2 : e.alreadyConnected = false := by
        cases hcase : e.alreadyConnected
        · rfl
        · exact absurd hcase ha
      have hres2 : (WiFiManager.connectGo hasW e m 1).1 = true := by
        simpa [WiFiManager.connect, ha2] using hres
      have h := wifi_connectGo_success_suffix hasW e m 1 hres2
      right
      simpa [WiFiManager.connect, ha2] using h
  · by_cases ha : e.alreadyConnected = true
    · simp [WiFiManager.connect, ha, wifi_failThenSleep_nil]
    · have ha2 : e.alreadyConnected = false := by
        cases hcase : e.alreadyConnected
        · rfl
        · exact absurd hcase ha
      simpa [WiFiManager.connect, ha2] using wifi_connectGo_failThenSleep hasW e m 1
  · intro ha hall
    simp [WiFiManager.connect, ha, wifi_connectGo_all_fail hasW e hall m 1]

/-- C1 witness: the amended retry-loop properties evaluated at concrete
environments — an MQTT call whose second attempt succeeds, an MQTT call
whose probes all fail, a WiFi call that succeeds, and a WiFi call whose
attempts all fail. -/
theorem c1_amended_retry_loops_witness :
    MQTTClientManager.probesFedBefore
      (MQTTClientManager.connect (fun _ => true) (fun j => j == 1) 3 true).2 = true ∧
    (∃ tr, (MQTTClientManager.connect (fun _ => true) (fun j => j == 1) 3 true).2 =
      tr ++ [MQTTClientManager.MEv.probe true]) ∧
    (MQTTClientManager.connect (fun _ => true) (fun _ => false) 3 true).1 = false ∧
    (∃ tr, (WiFiManager.connect true c1Env 3).2 =
      tr ++ [WiFiManager.WEv.probeEnd true]) ∧
    (WiFiManager.connect true c1EnvAllFail 3).1 = false := by
  refine ⟨?_, ?_, ?_, ?_, ?_⟩
  · exact (c1_amended_retry_loops (fun _ => true) (fun j => j == 1) 3 true c1Env 3).1 rfl
  · exact (c1_amended_retry_loops (fun _ => true) (fun j => j == 1) 3 true
      c1Env 3).2.1 (by decide)
  · exact (c1_amended_retry_loops (fun _ => true) (fun _ => false) 3 true
      c1Env 3).2.2.2.1 (fun j => rfl)
  · have h := (c1_amended_retry_loops (fun _ => true) (fun _ => false) 3 true
      c1Env 3).2.2.2.2.1 (by decide)
    rcases h with h | h
    · exact absurd h (by decide)
    · exact h
  · exact (c1_amended_retry_loops (fun _ => true) (fun _ => false) 3 true
      c1EnvAllFail 3).2.2.2.2.2.2 rfl (fun j => rfl)

/-- C10: for every call to `MQTTClientManager::connect` whose trace
reaches the WiFi-status check failure (the wireless link is down at the
moment an attempt begins), the call returns `false`, the trace ends at
that very event — so no probe and no inter-attempt sleep follows it —
and fewer broker probes than the full retry budget were consumed. -/
theorem c10_connect_returns_false_when_wifi_down (wifiUp probeOk : Nat → Bool)
    (retryCount : Nat) (hasW : Bool)
    (hmem : MQTTClientManager.MEv.wifiFail ∈
      (MQTTClientManager.connect wifiUp probeOk retryCount hasW).2) :
    (MQTTClientManager.connect wifiUp probeOk retryCount hasW).1 = false ∧
    (∃ tr, (MQTTClientManager.connect wifiUp probeOk retryCount hasW).2 =
      tr ++ [MQTTClientManager.MEv.wifiFail]) ∧
    (MQTTClientManager.connect wifiUp probeOk retryCount hasW).2.countP
      MQTTClientManager.isProbe < retryCount :=
  mqtt_connectGo_wifiFail_aborts wifiUp probeOk hasW retryCount 0 hmem

/-- C10 witness: a call during which WiFi is down at the first attempt
returns `false` with a trace ending at the WiFi-check failure and zero
broker probes consumed out of 3. -/
theorem c10_connect_returns_false_when_wifi_down_witness :
    (MQTTClientManager.connect (fun _ => false) (fun _ => true) 3 true).1 = false ∧
    (∃ tr, (MQTTClientManager.connect (fun _ => false) (fun _ => true) 3 true).2 =
      tr ++ [MQTTClientManager.MEv.wifiFail]) ∧
    (MQTTClientManager.connect (fun _ => false) (fun _ => true) 3 true).2.countP
      MQTTClientManager.isProbe < 3 :=
  c10_connect_returns_false_when_wifi_down (fun _ => false) (fun _ => true) 3 true
    (by decide)

/-- C4 witness: the network-failure cycle evaluated at a concrete
environment in which every later step would have succeeded. -/
theorem c4_network_failure_skips_later_probes_witness :
    (Dht22MqttIno.loopCycle ⟨false, false, false⟩
        ⟨false, true, true, true, true, true⟩).outcome =
      Dht22MqttIno.CycleOutcome.failedNetwork ∧
    (∀ b, Dht22MqttIno.CEv.probeNtp b ∉
      (Dht22MqttIno.loopCycle ⟨false, false, false⟩
        ⟨false, true, true, true, true, true⟩).trace) ∧
    (∀ b, Dht22MqttIno.CEv.probeMqtt b ∉
      (Dht22MqttIno.loopCycle ⟨false, false, false⟩
        ⟨false, true, true, true, true, true⟩).trace) ∧
    (Dht22MqttIno.loopCycle ⟨false, false, false⟩
        ⟨false, true, true, true, true, true⟩).published = false ∧
    Dht22MqttIno.runTrace ⟨false, false, false⟩
        (Dht22MqttIno.loopCycle ⟨false, false, false⟩
          ⟨false, true, true, true, true, true⟩).trace =
      ⟨false, false, false⟩ :=
  c4_network_failure_skips_later_probes false false false true true true true true
